import Mathlib

/-!
Verification development for the pcf-dev-proxy repository.

The definitions below are a shallow embedding of the TypeScript sources:

* `src/proxy.ts` -- the HTTPS MITM proxy, its intercepted-request handler,
  the HMR control plane (per-control reload queue, ACK handling, timeout),
  the `/reload` and `/ack` HTTP endpoints, and the bundle watcher;
* the in-page runtime (`runReload` in the injected client) -- only its
  ACK-status computation is needed here.

Machine-level conventions of the embedding:

* JavaScript strings are Lean `String`s; `String.trim` models
  `String.prototype.trim` (the sources only ever trim ASCII whitespace).
* JSON values produced by `JSON.parse` are modelled by the inductive
  `JsValue`.  Property access `payload.x` on the parsed body is modelled by
  `payloadGet`: objects look the key up, every other value (including
  arrays, whose JSON form has no string-named properties for the key names
  the sources use) yields `undefined`.
* Node's `path.join` / `path.resolve` are modelled for POSIX separators
  and absolute serving roots (the only configuration the sandbox check of
  the source exercises): both are purely lexical segment normalisation.
* The file system is a function `String -> Option String` from canonical
  absolute path to file contents; `none` means the file does not exist.
* Timers are modelled by explicit events: a `setTimeout` arms a slot in the
  state, and a separate `fire` transition models the callback running.
  `clearTimeout` empties the slot, so only the armed callback can fire.
-/

namespace PcfDevProxy

/-! ## Basic string helpers (embeddings of the JS string primitives used) -/

/-- Does the first list start with the second one?  Embeds
`String.prototype.startsWith` after `toList`. -/
def charsStartWith : List Char → List Char → Bool
  | _, [] => true
  | [], _ :: _ => false
  | c :: cs, p :: ps => c = p && charsStartWith cs ps

/-- `s.startsWith p` of JavaScript. -/
def strStartsWith (s p : String) : Bool := charsStartWith s.toList p.toList

/-- `s.endsWith p` of JavaScript. -/
def strEndsWith (s p : String) : Bool :=
  charsStartWith s.toList.reverse p.toList.reverse

/-- Does `hay` contain `needle` as a contiguous substring? -/
def charsContain : List Char → List Char → Bool
  | [], needle => needle.isEmpty
  | c :: tl, needle => charsStartWith (c :: tl) needle || charsContain tl needle

/-- `s.includes sub` of JavaScript. -/
def strContains (s sub : String) : Bool := charsContain s.toList sub.toList

/-! ## Path model (Node `path.posix` on absolute roots)

`path.join(a, b)` concatenates with a separator and `path.resolve(p)` of an
absolute `p` is lexical normalisation: empty and `.` segments vanish and
`..` pops the previous segment (clamped at the root).  The proxy only ever
resolves `servingDir` and `join(servingDir, filename)` with an absolute
`servingDir`, where the two functions agree with this model. -/

/-- Split a character list on `/`. -/
def segsOfAux : List Char → String → List String
  | [], acc => [acc]
  | c :: cs, acc => if c = '/' then acc :: segsOfAux cs "" else segsOfAux cs (acc.push c)

/-- Split a path into its `/`-separated segments. -/
def segsOf (p : String) : List String := segsOfAux p.toList ""

/-- Lexical normalisation of the segments of an absolute path. -/
def normSegs (segs : List String) : List String :=
  segs.foldl
    (fun acc seg =>
      if seg = "" then acc
      else if seg = "." then acc
      else if seg = ".." then acc.dropLast
      else acc ++ [seg])
    []

/-- Rejoin segments with `/`. -/
def joinSegs : List String → String
  | [] => ""
  | [s] => s
  | s :: rest => s ++ "/" ++ joinSegs rest

/-- The path separator used by the model (`path.sep` on POSIX). -/
def pathSep : String := "/"

/-- `path.resolve(p)` for an absolute `p`. -/
def pathResolve (p : String) : String := "/" ++ joinSegs (normSegs (segsOf p))

/-- `path.join(a, b)`; normalisation is deferred to `pathResolve`, with which
every use in the handler composes. -/
def pathJoin (a b : String) : String := a ++ "/" ++ b

/-! ## Interception pattern (src/proxy.ts line 635)

The source builds
  new RegExp(controlName.replace(".", "\\.") + "/([^?]+)")
`String.prototype.replace` with a string pattern replaces only the FIRST
occurrence, so only the first dot of the control name is escaped; every
later dot stays a regular-expression wildcard.  For control identifiers
made of word characters and dots (the shape `cc_Namespace.Constructor`
produced by manifest parsing; see `regexPlainChar`) the compiled pattern is
the literal characters of the name, with the first dot literal and each
later dot matching an arbitrary character, followed by `/` and a capture
group of one or more non-`?` characters.  Matching is leftmost, and the
capture is greedy; both are deterministic for this pattern shape. -/

/-- One compiled token of the interception pattern. -/
inductive PatTok where
  | lit (c : Char)
  | anyChar
  deriving Repr, DecidableEq

/-- Characters on which the JS regex compilation modelled by
`controlTokens` is exact: letters, digits, `_` and `.`. -/
def regexPlainChar (c : Char) : Bool := c.isAlphanum || c = '_' || c = '.'

/-- Compile the control-name part of the pattern: the first `.` (escaped by
`replace`) is literal, later dots are wildcards, everything else literal.
The Boolean records whether a dot has been seen already. -/
def controlTokensGo : List Char → Bool → List PatTok
  | [], _ => []
  | c :: cs, seenDot =>
    if c = '.' then
      if seenDot then PatTok.anyChar :: controlTokensGo cs true
      else PatTok.lit '.' :: controlTokensGo cs true
    else PatTok.lit c :: controlTokensGo cs seenDot

/-- Tokens of the interception pattern for a control name. -/
def controlTokens (name : List Char) : List PatTok := controlTokensGo name false

/-- Does one token match one character? -/
def tokMatches : PatTok → Char → Bool
  | PatTok.lit c, d => c = d
  | PatTok.anyChar, _ => true

/-- Match the token list against the start of the input, returning the
unconsumed rest on success. -/
def toksMatchAt : List PatTok → List Char → Option (List Char)
  | [], cs => some cs
  | _ :: _, [] => none
  | t :: ts, c :: cs => if tokMatches t c then toksMatchAt ts cs else none

/-- Greedily split off the longest run of non-`?` characters
(the `([^?]+)` capture group). -/
def takeNonQ : List Char → List Char × List Char
  | [] => ([], [])
  | c :: cs =>
    if c = '?' then ([], c :: cs)
    else
      let r := takeNonQ cs
      (c :: r.1, r.2)

/-- Try the whole pattern at the current position: control-name tokens, a
literal `/`, then a non-empty greedy `[^?]+` capture. -/
def matchHere (toks : List PatTok) (cs : List Char) : Option (List Char) :=
  match toksMatchAt toks cs with
  | none => none
  | some rest =>
    match rest with
    | [] => none
    | c :: rest2 =>
      if c = '/' then
        let cap := (takeNonQ rest2).1
        if cap = [] then none else some cap
      else none

/-- Leftmost match: try the pattern at each start position in turn. -/
def interceptMatchFrom (toks : List PatTok) : List Char → Option (List Char)
  | [] => matchHere toks []
  | c :: cs =>
    match matchHere toks (c :: cs) with
    | some cap => some cap
    | none => interceptMatchFrom toks cs

/-- `url.match(interceptRe)?.[1]` -- the first capture group of the first
match of the interception pattern, if any. -/
def interceptMatch (controlName url : String) : Option String :=
  match interceptMatchFrom (controlTokens controlName.toList) url.toList with
  | none => none
  | some cap => some (String.mk cap)

/-! ## JSON values and body decoding (src/proxy.ts lines 320-395) -/

/-- A value produced by `JSON.parse`, plus `undefined` for absent
properties.  JS numbers are modelled as integers; none of the embedded
functions computes with them, they are only stored or defaulted. -/
inductive JsValue where
  | vstr (s : String)
  | vnum (n : Int)
  | vbool (b : Bool)
  | vnull
  | vundefined
  | varr (xs : List JsValue)
  | vobj (fields : List (String × JsValue))

/-- Look a key up in an object's field list (first binding wins;
`JSON.parse` never produces duplicate keys). -/
def fieldsGet : List (String × JsValue) → String → JsValue
  | [], _ => JsValue.vundefined
  | (k, v) :: rest, key => if k = key then v else fieldsGet rest key

/-- `payload.key` where `payload = (body && typeof body === "object") ? body : {}`.
Objects look the key up; `null`, numbers, strings and booleans are replaced
by the empty object; JSON arrays pass the `typeof` test but carry no
string-named properties for the key names the sources use, so the access
yields `undefined` for them as well. -/
def payloadGet (body : JsValue) (key : String) : JsValue :=
  match body with
  | JsValue.vobj fields => fieldsGet fields key
  | _ => JsValue.vundefined

/-- Is the value a JS string (`typeof v === "string"`)? -/
def isJsString : JsValue → Bool
  | JsValue.vstr _ => true
  | _ => false

/-- Is the value a JS object in the sense of the `vobj` constructor? -/
def isJsObj : JsValue → Bool
  | JsValue.vobj _ => true
  | _ => false

/-- The string carried by a `vstr`, `""` otherwise (used only under an
`isJsString` guard). -/
def jsStrOrEmpty : JsValue → String
  | JsValue.vstr s => s
  | _ => ""

/-- `typeof v === "string" ? v : undefined`. -/
def jsStrOpt : JsValue → Option String
  | JsValue.vstr s => some s
  | _ => none

/-- `typeof v === "number" ? v : 0`. -/
def jsNumOrZero : JsValue → Int
  | JsValue.vnum n => n
  | _ => 0

/-- `String.prototype.trim` (the bodies in play are ASCII). -/
def jsTrim (s : String) : String := s.trim

/-- A reload request, the decoded input of the control plane. -/
structure ReloadRequest where
  controlName : String
  buildId : String
  trigger : String
  changedFiles : Option (List String)
  deriving Repr, DecidableEq

/-- `toReloadRequest(body, fallbackControlName)` of src/proxy.ts lines
331-352.  `nowIso` stands for `new Date().toISOString()`, the default
build id. -/
def toReloadRequest (body : JsValue) (fallbackControlName nowIso : String) :
    ReloadRequest where
  controlName :=
    match payloadGet body "controlName" with
    | JsValue.vstr s => if (jsTrim s).length > 0 then jsTrim s else fallbackControlName
    | _ => fallbackControlName
  buildId :=
    match payloadGet body "buildId" with
    | JsValue.vstr s => if (jsTrim s).length > 0 then jsTrim s else nowIso
    | _ => nowIso
  trigger :=
    match payloadGet body "trigger" with
    | JsValue.vstr s => if (jsTrim s).length > 0 then jsTrim s else "manual"
    | _ => "manual"
  changedFiles :=
    match payloadGet body "changedFiles" with
    | JsValue.varr xs => some (xs.filterMap jsStrOpt)
    | _ => none

/-- A reload acknowledgement, as stored in `lastAckByControl`.
`status` is one of the strings success, partial, failed. -/
structure ReloadAck where
  id : String
  controlName : String
  buildId : String
  status : String
  instancesTotal : Int
  instancesReloaded : Int
  durationMs : Int
  error : Option String
  timestamp : Int
  deriving Repr, DecidableEq

/-- Is the raw `status` field one of the three accepted status strings?
Embeds the strict `!==` comparisons of the source: non-strings never
compare equal to a string. -/
def jsStatusValid : JsValue → Bool
  | JsValue.vstr s => s = "success" || s = "partial" || s = "failed"
  | _ => false

/-- `toReloadAck(body)` of src/proxy.ts lines 354-381.  The source checks
`status` first and the three required string fields second; numeric fields
default to 0, `error` is kept only when a string, and `timestamp` is the
server's clock `now`. -/
def toReloadAck (body : JsValue) (now : Int) : Except String ReloadAck :=
  if jsStatusValid (payloadGet body "status") then
    if isJsString (payloadGet body "id") && isJsString (payloadGet body "controlName")
        && isJsString (payloadGet body "buildId") then
      Except.ok
        { id := jsStrOrEmpty (payloadGet body "id")
          controlName := jsStrOrEmpty (payloadGet body "controlName")
          buildId := jsStrOrEmpty (payloadGet body "buildId")
          status := jsStrOrEmpty (payloadGet body "status")
          instancesTotal := jsNumOrZero (payloadGet body "instancesTotal")
          instancesReloaded := jsNumOrZero (payloadGet body "instancesReloaded")
          durationMs := jsNumOrZero (payloadGet body "durationMs")
          error := jsStrOpt (payloadGet body "error")
          timestamp := now }
    else Except.error "ACK missing required fields"
  else Except.error "Invalid ACK status"

/-! ## HMR control plane queue (src/proxy.ts lines 397-487)

The control plane keys its state by control name in a `Map`; the queues of
different controls never interact, so the embedding tracks the state
attached to one control name: its `ControlQueueState`, its entry in
`lastAckByControl`, and the log of `broadcastReload` calls made for it
(each call sends one WebSocket frame to every open client). -/

/-- A queued reload message (`ReloadMessage` of the source). -/
structure ReloadMessage where
  id : String
  controlName : String
  buildId : String
  trigger : String
  changedFiles : Option (List String)
  timestamp : Int
  deriving Repr, DecidableEq

/-- `ControlQueueState` of the source.  `timer` is the armed 15-second
timeout; it stores the message the callback captured at dispatch time
(`clearTimeout` empties it, so only the stored callback can ever fire). -/
structure ControlQueueState where
  active : Bool
  current : Option ReloadMessage
  pending : Option ReloadMessage
  timer : Option ReloadMessage
  deriving Repr, DecidableEq

/-- The observable control-plane state for one control name. -/
structure PlaneState where
  queue : ControlQueueState
  lastAck : Option ReloadAck
  broadcasts : List ReloadMessage
  deriving Repr, DecidableEq

/-- The state `getQueue` creates on first touch, with no recorded ACK and
no broadcasts yet. -/
def initPlane : PlaneState where
  queue := { active := false, current := none, pending := none, timer := none }
  lastAck := none
  broadcasts := []

/-- `processQueue` (lines 432-453): when idle and a pending message exists,
move it to `current`, mark active, broadcast it, and (re-)arm the timeout
capturing the dispatched message. -/
def processQueue (s : PlaneState) : PlaneState :=
  match s.queue.pending with
  | none => s
  | some current =>
    if s.queue.active then s
    else
      { queue := { active := true, current := some current, pending := none,
                   timer := some current }
        lastAck := s.lastAck
        broadcasts := s.broadcasts ++ [current] }

/-- `enqueueReload` (lines 455-469), from the point where the message has
been built: overwrite the single pending slot, then `processQueue`. -/
def enqueueReload (s : PlaneState) (m : ReloadMessage) : PlaneState :=
  processQueue { s with queue := { s.queue with pending := some m } }

/-- `createTimeoutAck` (lines 383-395). -/
def createTimeoutAck (current : ReloadMessage) (now : Int) : ReloadAck where
  id := current.id
  controlName := current.controlName
  buildId := current.buildId
  status := "failed"
  instancesTotal := 0
  instancesReloaded := 0
  durationMs := 15000
  error := some "Timed out waiting for runtime ACK"
  timestamp := now

/-- The armed timeout fires (the callback of lines 443-452).  Guarded by
`current.id` being unchanged from the captured message; on fire it records
the synthesized failed ACK, clears the queue state and calls
`processQueue` again. -/
def fireTimeout (s : PlaneState) (now : Int) : PlaneState :=
  match s.queue.timer with
  | none => s
  | some captured =>
    match s.queue.current with
    | none => s
    | some cur =>
      if cur.id = captured.id then
        processQueue
          { queue := { active := false, current := none, pending := s.queue.pending,
                       timer := none }
            lastAck := some (createTimeoutAck captured now)
            broadcasts := s.broadcasts }
      else s

/-- `completeAck` (lines 471-487): always record the ACK; when it matches
the active message, cancel the timeout, go idle and drain the queue. -/
def completeAck (s : PlaneState) (ack : ReloadAck) : PlaneState :=
  let s1 : PlaneState := { s with lastAck := some ack }
  if s1.queue.active then
    match s1.queue.current with
    | none => s1
    | some cur =>
      if cur.id = ack.id then
        processQueue { s1 with queue := { active := false, current := none,
                                          pending := s1.queue.pending, timer := none } }
      else s1
  else s1

/-- The most recently enqueued message of a sequence, if any (the content
of the single pending slot after the sequence of overwrites). -/
def lastEnq (l : List ReloadMessage) : Option ReloadMessage :=
  l.foldl (fun _ m => some m) none

/-! ## Intercepted-request handler (src/proxy.ts lines 659-698) -/

/-- The part of an HTTP response the handler determines: status code, body
and content type. -/
structure HttpResponse where
  statusCode : Nat
  body : String
  contentType : Option String
  deriving Repr, DecidableEq

/-- The `thenCallback` body for an intercepted request, with the capture
group already extracted.  `fsys` maps canonical absolute paths to file
contents (the source's `existsSync` and `readFileSync` resolve their
argument to the same canonical path).  In hot mode a `bundle.js` response
is prefixed with the ws-port declaration and the in-page runtime source
`hmrSource` plus a newline; a `sourceMappingURL` comment is appended to any
`.js` file with an existing sibling map. -/
def handleIntercepted (servingDir : String) (hotMode : Bool) (wsPort : Nat)
    (hmrSource : String) (fsys : String → Option String) (filename : String) :
    HttpResponse :=
  if filename = "" then { statusCode := 404, body := "No match", contentType := none }
  else
    let canonical := pathResolve (pathJoin servingDir filename)
    if strStartsWith canonical (pathResolve servingDir ++ pathSep) then
      match fsys canonical with
      | none =>
        { statusCode := 404, body := "File not found: " ++ filename, contentType := none }
      | some contents =>
        let body0 :=
          if hotMode ∧ filename = "bundle.js" then
            "var __pcfHmrWsPort = " ++ toString wsPort ++ ";\n" ++ (hmrSource ++ "\n")
              ++ contents
          else contents
        let body1 :=
          if strEndsWith filename ".js" ∧ (fsys (canonical ++ ".map")).isSome then
            body0 ++ "\n//# sourceMappingURL=" ++ filename ++ ".map\n"
          else body0
        { statusCode := 200, body := body1,
          contentType := some (if strEndsWith filename ".map" then "application/json"
                               else "application/javascript") }
    else { statusCode := 403, body := "Forbidden", contentType := none }

/-- One request through the proxy: URLs matched by the interception
pattern go to `handleIntercepted` with the first capture group as the
filename; everything else passes through (`none`). -/
def handleProxyRequest (controlName servingDir : String) (hotMode : Bool)
    (wsPort : Nat) (hmrSource : String) (fsys : String → Option String)
    (url : String) : Option HttpResponse :=
  match interceptMatch controlName url with
  | none => none
  | some filename =>
    some (handleIntercepted servingDir hotMode wsPort hmrSource fsys filename)

/-! ## POST /reload endpoint (src/proxy.ts lines 320-329, 525-535) -/

/-- The outcome of reading the request body, as `readJsonBody` sees it:
no body (or only whitespace), a non-empty body `JSON.parse` rejects, or a
non-empty body parsing to a JSON value. -/
inductive BodyInput where
  | empty
  | malformed
  | parsed (v : JsValue)

/-- `readJsonBody`: an empty body becomes the empty object, a malformed one
throws (`JSON.parse`'s SyntaxError, message abstracted), a parsed one is
returned. -/
def readJsonBody : BodyInput → Except String JsValue
  | BodyInput.empty => Except.ok (JsValue.vobj [])
  | BodyInput.malformed => Except.error "Unexpected token"
  | BodyInput.parsed v => Except.ok v

/-- Build the `ReloadMessage` of `enqueueReload` (lines 456-464): the id is
r-(epoch ms)-(sequence number), and an empty `controlName` (falsy in JS)
falls back to the configured control. -/
def mkReloadMessage (req : ReloadRequest) (fallbackControlName : String)
    (now : Int) (seq : Nat) : ReloadMessage where
  id := "r-" ++ toString now ++ "-" ++ toString seq
  controlName := if req.controlName = "" then fallbackControlName else req.controlName
  buildId := req.buildId
  trigger := req.trigger
  changedFiles := req.changedFiles
  timestamp := now

/-- The POST /reload handler: read the body; on failure respond 400 with no
state change; otherwise decode with `toReloadRequest`, enqueue, and respond
200 carrying the accepted id.  The result is the status code, the accepted
id if any, and the control-plane state afterwards. -/
def handleReloadPost (input : BodyInput) (fallbackControlName nowIso : String)
    (now : Int) (seq : Nat) (s : PlaneState) :
    Nat × Option String × PlaneState :=
  match readJsonBody input with
  | Except.error _ => (400, none, s)
  | Except.ok body =>
    let req := toReloadRequest body fallbackControlName nowIso
    let msg := mkReloadMessage req fallbackControlName now seq
    (200, some msg.id, enqueueReload s msg)

/-! ## Bundle watcher (src/proxy.ts lines 608-628, 740-748)

`watchBundleAndEnqueue` arms a 500 ms debounce on every change event for
`bundle.js`; the debounce callback calls `enqueueReload` with trigger
watch-bundle.  `shutdown` calls `watcher.close()`, which stops the
delivery of further file-system events but does not touch the local
`debounceTimer`. -/

/-- The events the watcher reacts to: a file-system change notification, a
debounce timer firing, and `watcher.close()`. -/
inductive WatcherEvent where
  | fileChange (filename : String)
  | debounceFire
  | close
  deriving Repr, DecidableEq

/-- Watcher state: whether `close()` has run and whether a debounce timer
is armed. -/
structure WatcherState where
  closed : Bool
  debounceArmed : Bool
  deriving Repr, DecidableEq

/-- One watcher transition; emits the `enqueueReload` requests the step
makes.  After `close()` the file-system callback is never invoked again
(Node guarantees this for `fs.watch`), so change events are dropped; the
debounce callback, however, is an independent timer that `close()` does
not cancel, and it checks nothing before enqueueing. -/
def watcherStep (controlName nowIso : String) (s : WatcherState) :
    WatcherEvent → WatcherState × List ReloadRequest
  | WatcherEvent.fileChange fn =>
    if s.closed then (s, [])
    else if fn = "bundle.js" then ({ s with debounceArmed := true }, [])
    else (s, [])
  | WatcherEvent.debounceFire =>
    if s.debounceArmed then
      ({ s with debounceArmed := false },
       [{ controlName := controlName, buildId := nowIso, trigger := "watch-bundle",
          changedFiles := none }])
    else (s, [])
  | WatcherEvent.close => ({ s with closed := true }, [])

/-- Run the watcher over a list of events, tagging every emitted request
with whether the watcher was already closed when it was emitted. -/
def watcherRun (controlName nowIso : String) (s : WatcherState) :
    List WatcherEvent → List (Bool × ReloadRequest)
  | [] => []
  | e :: rest =>
    let r := watcherStep controlName nowIso s e
    r.2.map (fun q => (s.closed, q)) ++ watcherRun controlName nowIso r.1 rest

/-! ## In-page runtime ACK status (injected runtime, `runReload`)

After re-initialisation the runtime counts `reloaded` successes over the
`total` snapshotted instances and computes the ACK status; any failure
earlier in the cycle is caught and acknowledged as failed. -/

/-- The status computation at the end of a completed reload cycle:
success when all instances reloaded, partial when some did, failed
otherwise. -/
def runReloadStatus (total reloaded : Nat) : String :=
  if reloaded = total then "success"
  else if 0 < reloaded then "partial"
  else "failed"

/-- A reload cycle either reaches re-initialisation with one Boolean per
snapshotted instance (did its re-init succeed?), or fails earlier with an
error message. -/
inductive ReloadCycleOutcome where
  | completed (results : List Bool)
  | failedBefore (errMsg : String)

/-- The ACK status the runtime reports for a cycle outcome. -/
def cycleAckStatus : ReloadCycleOutcome → String
  | ReloadCycleOutcome.completed results =>
    runReloadStatus results.length (results.filter (fun b => b)).length
  | ReloadCycleOutcome.failedBefore _ => "failed"

/-! ## Concrete sample inputs used by witnesses and counterexamples -/

/-- An ACK body whose `status` is valid but whose `id` is a number. -/
def ackBodyMissingId : JsValue :=
  JsValue.vobj [("status", JsValue.vstr "failed"), ("id", JsValue.vnum 1)]

/-- An accepted ACK body carrying a negative `instancesTotal` and an
`instancesReloaded` larger than it. -/
def ackBodyBadCounts : JsValue :=
  JsValue.vobj
    [("status", JsValue.vstr "success"), ("id", JsValue.vstr "a"),
     ("controlName", JsValue.vstr "c"), ("buildId", JsValue.vstr "b"),
     ("instancesTotal", JsValue.vnum (-1)), ("instancesReloaded", JsValue.vnum 2)]

/-- The ACK `toReloadAck` produces for `ackBodyBadCounts` at time 0. -/
def ackBadCounts : ReloadAck where
  id := "a"
  controlName := "c"
  buildId := "b"
  status := "success"
  instancesTotal := -1
  instancesReloaded := 2
  durationMs := 0
  error := none
  timestamp := 0

/-- An accepted ACK body with all numeric fields absent. -/
def ackBodyDefaults : JsValue :=
  JsValue.vobj
    [("status", JsValue.vstr "success"), ("id", JsValue.vstr "x"),
     ("controlName", JsValue.vstr "c"), ("buildId", JsValue.vstr "b")]

/-- The ACK `toReloadAck` produces for `ackBodyDefaults` at time 5. -/
def ackDefaults : ReloadAck where
  id := "x"
  controlName := "c"
  buildId := "b"
  status := "success"
  instancesTotal := 0
  instancesReloaded := 0
  durationMs := 0
  error := none
  timestamp := 5

/-- Sample reload messages for one control. -/
def msgA : ReloadMessage where
  id := "r-1-1"
  controlName := "cc_Test.Control"
  buildId := "b1"
  trigger := "manual"
  changedFiles := none
  timestamp := 1

/-- Second sample reload message. -/
def msgB : ReloadMessage where
  id := "r-2-2"
  controlName := "cc_Test.Control"
  buildId := "b2"
  trigger := "manual"
  changedFiles := none
  timestamp := 2

/-- Third sample reload message. -/
def msgC : ReloadMessage where
  id := "r-3-3"
  controlName := "cc_Test.Control"
  buildId := "b3"
  trigger := "manual"
  changedFiles := none
  timestamp := 3

/-- A runtime ACK for `msgA`. -/
def ackForA : ReloadAck where
  id := "r-1-1"
  controlName := "cc_Test.Control"
  buildId := "b1"
  status := "success"
  instancesTotal := 1
  instancesReloaded := 1
  durationMs := 5
  error := none
  timestamp := 9

/-- A plane state with `msgA` dispatched (its timeout armed) and `msgB`
pending. -/
def planeDispatchedAB : PlaneState where
  queue := { active := true, current := some msgA, pending := some msgB, timer := some msgA }
  lastAck := none
  broadcasts := [msgA]

/-- Watcher trace: a bundle change arms the debounce, the watcher is
closed, then the un-cancelled debounce fires. -/
def watchTraceArmedThenClosed : List WatcherEvent :=
  [WatcherEvent.fileChange "bundle.js", WatcherEvent.close, WatcherEvent.debounceFire]

/-- A serving root holding `bundle.js` and its source map. -/
def fsysSample : String → Option String := fun p =>
  if p = "/srv/out/bundle.js" then some "BUNDLE"
  else if p = "/srv/out/bundle.js.map" then some "MAP"
  else none

/-! ## Claim theorems -/

/-- C8: in the in-page runtime's reload cycle, for every vector of re-init
outcomes the ACK status is success when every instance reloaded, partial
when some but not all did, failed when there were instances and none
reloaded, and failed on any earlier failure of the cycle. -/
theorem reload_status_computation (results : List Bool) (e : String) :
    ((results.filter (fun b => b)).length = results.length →
      cycleAckStatus (ReloadCycleOutcome.completed results) = "success") ∧
    (0 < (results.filter (fun b => b)).length →
      (results.filter (fun b => b)).length < results.length →
      cycleAckStatus (ReloadCycleOutcome.completed results) = "partial") ∧
    (0 < results.length → (results.filter (fun b => b)).length = 0 →
      cycleAckStatus (ReloadCycleOutcome.completed results) = "failed") ∧
    cycleAckStatus (ReloadCycleOutcome.failedBefore e) = "failed" := by
  refine ⟨?_, ?_, ?_, rfl⟩
  · intro h
    show runReloadStatus results.length (results.filter (fun b => b)).length = "success"
    unfold runReloadStatus
    rw [if_pos h]
  · intro h1 h2
    show runReloadStatus results.length (results.filter (fun b => b)).length = "partial"
    unfold runReloadStatus
    rw [if_neg (by omega), if_pos h1]
  · intro h1 h2
    show runReloadStatus results.length (results.filter (fun b => b)).length = "failed"
    unfold runReloadStatus
    rw [if_neg (by omega), if_neg (by omega)]

/-- C8 witness: two instances with one successful re-init give a partial
ACK; a cycle that failed before re-initialisation gives a failed ACK. -/
theorem reload_status_computation_witness :
    cycleAckStatus (ReloadCycleOutcome.completed [true, false]) = "partial" ∧
    cycleAckStatus (ReloadCycleOutcome.failedBefore "boom") = "failed" :=
  ⟨(reload_status_computation [true, false] "boom").2.1 (by decide) (by decide),
   (reload_status_computation [true, false] "boom").2.2.2⟩

/-- A conditional that returns its own scrutinee-compared value either
way collapses (used for the `controlName || fallback` fallback when the
two coincide). -/
theorem ite_empty_self (a : String) : (if a = "" then "" else a) = a := by
  by_cases h : a = ""
  · simp [h]
  · simp [h]

/-- C6 counterexample: for the empty JSON object, `id` is not a string,
yet `toReloadAck` fails with the message Invalid ACK status, not with
ACK missing required fields -- the status check runs first. -/
theorem ack_status_checked_first_cex :
    isJsString (payloadGet (JsValue.vobj []) "id") = false ∧
    toReloadAck (JsValue.vobj []) 0 = Except.error "Invalid ACK status" ∧
    toReloadAck (JsValue.vobj []) 0 ≠ Except.error "ACK missing required fields" := by
  refine ⟨rfl, rfl, ?_⟩
  intro h
  rw [show toReloadAck (JsValue.vobj []) 0 = Except.error "Invalid ACK status" from rfl] at h
  simp only [Except.error.injEq] at h
  exact absurd h (by decide)

/-- C6 (amended): when the `status` field is one of the three accepted
strings and at least one of `id`, `controlName`, `buildId` is not a
string, `toReloadAck` fails with the message ACK missing required fields
(an invalid `status` is reported first, as Invalid ACK status). -/
theorem ack_missing_fields_error (body : JsValue) (now : Int)
    (hstatus : jsStatusValid (payloadGet body "status") = true)
    (hmiss : (isJsString (payloadGet body "id")
              && isJsString (payloadGet body "controlName")
              && isJsString (payloadGet body "buildId")) = false) :
    toReloadAck body now = Except.error "ACK missing required fields" := by
  unfold toReloadAck
  rw [if_pos hstatus, if_neg (by simp [hmiss])]

/-- C6 witness: a body with a valid status and a numeric `id` is rejected
with the missing-fields message. -/
theorem ack_missing_fields_error_witness :
    toReloadAck ackBodyMissingId 0 = Except.error "ACK missing required fields" :=
  ack_missing_fields_error ackBodyMissingId 0 (by decide) (by decide)

/-- C7 counterexample: `toReloadAck` accepts a body whose numeric fields
violate the data-model bounds and passes them through: the returned ACK
has a negative `instancesTotal` that is smaller than `instancesReloaded`. -/
theorem ack_bounds_unvalidated_cex :
    toReloadAck ackBodyBadCounts 0 = Except.ok ackBadCounts ∧
    ackBadCounts.instancesTotal < 0 ∧
    ackBadCounts.instancesTotal < ackBadCounts.instancesReloaded :=
  ⟨rfl, by decide, by decide⟩

/-- C7 (amended): for every accepted body the returned ACK's
`instancesTotal` and `instancesReloaded` are the body's numeric values
when present and 0 otherwise -- the code performs no validation -- so the
data-model bounds (non-negative, reloaded at most total) hold exactly when
the supplied values already satisfy them, in particular when both fields
are absent. -/
theorem ack_numeric_passthrough (body : JsValue) (now : Int) (a : ReloadAck)
    (h : toReloadAck body now = Except.ok a) :
    a.instancesTotal = jsNumOrZero (payloadGet body "instancesTotal") ∧
    a.instancesReloaded = jsNumOrZero (payloadGet body "instancesReloaded") ∧
    (0 ≤ jsNumOrZero (payloadGet body "instancesTotal") →
      0 ≤ jsNumOrZero (payloadGet body "instancesReloaded") →
      jsNumOrZero (payloadGet body "instancesReloaded")
        ≤ jsNumOrZero (payloadGet body "instancesTotal") →
      0 ≤ a.instancesTotal ∧ 0 ≤ a.instancesReloaded ∧
        a.instancesReloaded ≤ a.instancesTotal) := by
  unfold toReloadAck at h
  by_cases h1 : jsStatusValid (payloadGet body "status") = true
  · rw [if_pos h1] at h
    by_cases h2 : (isJsString (payloadGet body "id")
        && isJsString (payloadGet body "controlName")
        && isJsString (payloadGet body "buildId")) = true
    · rw [if_pos h2] at h
      have ha := Except.ok.inj h
      subst ha
      exact ⟨rfl, rfl, fun p q r => ⟨p, q, r⟩⟩
    · rw [if_neg h2] at h
      exact absurd h (by simp)
  · rw [if_neg h1] at h
    exact absurd h (by simp)

/-- C7 witness: a body with no numeric fields yields an ACK whose counts
are both 0, which satisfies the bounds. -/
theorem ack_numeric_passthrough_witness :
    ackDefaults.instancesTotal = jsNumOrZero (payloadGet ackBodyDefaults "instancesTotal") ∧
    ackDefaults.instancesReloaded
      = jsNumOrZero (payloadGet ackBodyDefaults "instancesReloaded") ∧
    (0 ≤ jsNumOrZero (payloadGet ackBodyDefaults "instancesTotal") →
      0 ≤ jsNumOrZero (payloadGet ackBodyDefaults "instancesReloaded") →
      jsNumOrZero (payloadGet ackBodyDefaults "instancesReloaded")
        ≤ jsNumOrZero (payloadGet ackBodyDefaults "instancesTotal") →
      0 ≤ ackDefaults.instancesTotal ∧ 0 ≤ ackDefaults.instancesReloaded ∧
        ackDefaults.instancesReloaded ≤ ackDefaults.instancesTotal) :=
  ack_numeric_passthrough ackBodyDefaults 5 ackDefaults rfl

/-- C10: POST /reload responds 400 exactly when the non-empty body fails
to parse as JSON; a body that parses to a non-object value is accepted
like the empty object: the enqueued reload carries the fallback control
name, the default build id and the trigger manual, and the response is 200
with the accepted id. -/
theorem reload_endpoint_accepts_nonobjects (input : BodyInput)
    (fallbackControlName nowIso : String) (now : Int) (seq : Nat)
    (s : PlaneState) (v : JsValue) (hv : isJsObj v = false) :
    ((handleReloadPost input fallbackControlName nowIso now seq s).1 = 400 ↔
      input = BodyInput.malformed) ∧
    handleReloadPost (BodyInput.parsed v) fallbackControlName nowIso now seq s =
      (200, some ("r-" ++ toString now ++ "-" ++ toString seq),
        enqueueReload s
          { id := "r-" ++ toString now ++ "-" ++ toString seq,
            controlName := fallbackControlName, buildId := nowIso,
            trigger := "manual", changedFiles := none, timestamp := now }) ∧
    handleReloadPost (BodyInput.parsed v) fallbackControlName nowIso now seq s =
      handleReloadPost (BodyInput.parsed (JsValue.vobj []))
        fallbackControlName nowIso now seq s := by
  refine ⟨?_, ?_, ?_⟩
  · cases input <;> simp [handleReloadPost, readJsonBody]
  · cases v <;>
      simp_all [handleReloadPost, readJsonBody, toReloadRequest, payloadGet,
        mkReloadMessage, isJsObj, ite_empty_self]
  · cases v <;>
      simp_all [handleReloadPost, readJsonBody, toReloadRequest, payloadGet,
        mkReloadMessage, isJsObj, ite_empty_self, fieldsGet]

/-- C10 witness: a malformed body yields 400; the JSON number 5 is
accepted and enqueues the fallback reload. -/
theorem reload_endpoint_accepts_nonobjects_witness :
    ((handleReloadPost BodyInput.malformed "cc_Test.Control"
        "2026-01-01T00:00:00.000Z" 7 1 initPlane).1 = 400 ↔
      BodyInput.malformed = BodyInput.malformed) ∧
    handleReloadPost (BodyInput.parsed (JsValue.vnum 5)) "cc_Test.Control"
        "2026-01-01T00:00:00.000Z" 7 1 initPlane =
      (200, some ("r-" ++ toString (7 : Int) ++ "-" ++ toString (1 : Nat)),
        enqueueReload initPlane
          { id := "r-" ++ toString (7 : Int) ++ "-" ++ toString (1 : Nat),
            controlName := "cc_Test.Control", buildId := "2026-01-01T00:00:00.000Z",
            trigger := "manual", changedFiles := none, timestamp := 7 }) ∧
    handleReloadPost (BodyInput.parsed (JsValue.vnum 5)) "cc_Test.Control"
        "2026-01-01T00:00:00.000Z" 7 1 initPlane =
      handleReloadPost (BodyInput.parsed (JsValue.vobj [])) "cc_Test.Control"
        "2026-01-01T00:00:00.000Z" 7 1 initPlane :=
  reload_endpoint_accepts_nonobjects BodyInput.malformed "cc_Test.Control"
    "2026-01-01T00:00:00.000Z" 7 1 initPlane (JsValue.vnum 5) rfl

/-- Enqueueing while a dispatch is active only overwrites the pending
slot: `processQueue` returns immediately. -/
theorem enqueue_on_active (s : PlaneState) (m : ReloadMessage)
    (h : s.queue.active = true) :
    enqueueReload s m = { s with queue := { s.queue with pending := some m } } := by
  unfold enqueueReload processQueue
  simp [h]

/-- Folding a sequence of enqueues over an active state only rewrites the
pending slot, each enqueue overwriting the last. -/
theorem foldl_enqueue_active (l : List ReloadMessage) :
    ∀ s : PlaneState, s.queue.active = true →
      l.foldl enqueueReload s =
        { s with queue := { s.queue with
            pending := l.foldl (fun _ m => some m) s.queue.pending } } := by
  induction l with
  | nil => intro s _; rfl
  | cons a l ih =>
    intro s h
    rw [List.foldl_cons, enqueue_on_active s a h,
      ih { s with queue := { s.queue with pending := some a } } h]
    rfl

/-- The first enqueue from the idle initial state dispatches at once:
it broadcasts the message, marks it current and arms its timeout. -/
theorem enqueue_from_idle (m : ReloadMessage) :
    enqueueReload initPlane m =
      { queue := { active := true, current := some m, pending := none, timer := some m },
        lastAck := none, broadcasts := [m] } := rfl

/-- C2: a burst of enqueues for one control with no intervening ACK and no
timeout broadcasts exactly once, for the first message; the later ones
successively overwrite the single pending slot, and when the active
message is ACKed the most recently enqueued one (and only it) is
dispatched next. -/
theorem queue_latest_wins (m : ReloadMessage) (rest : List ReloadMessage)
    (ack : ReloadAck) (hack : ack.id = m.id) :
    let sAll := (m :: rest).foldl enqueueReload initPlane
    sAll.broadcasts = [m] ∧
    sAll.queue.active = true ∧
    sAll.queue.current = some m ∧
    sAll.queue.pending = lastEnq rest ∧
    (completeAck sAll ack).broadcasts = [m] ++ (lastEnq rest).toList ∧
    (completeAck sAll ack).queue.current = lastEnq rest := by
  intro sAll
  have hfold : sAll =
      { queue := { active := true, current := some m, pending := lastEnq rest,
                   timer := some m },
        lastAck := none, broadcasts := [m] } := by
    show (m :: rest).foldl enqueueReload initPlane = _
    rw [List.foldl_cons, enqueue_from_idle, foldl_enqueue_active rest _ rfl]
    rfl
  rw [hfold]
  refine ⟨rfl, rfl, rfl, rfl, ?_, ?_⟩ <;>
  · unfold completeAck
    simp only [if_pos]
    rw [if_pos (show m.id = ack.id from hack.symm)]
    unfold processQueue
    cases hl : lastEnq rest with
    | none => simp
    | some p => simp

/-- C2 witness: enqueueing three messages broadcasts only the first;
ACKing it dispatches the third (the second was overwritten). -/
theorem queue_latest_wins_witness :
    let sAll := (msgA :: [msgB, msgC]).foldl enqueueReload initPlane
    sAll.broadcasts = [msgA] ∧
    sAll.queue.active = true ∧
    sAll.queue.current = some msgA ∧
    sAll.queue.pending = lastEnq [msgB, msgC] ∧
    (completeAck sAll ackForA).broadcasts = [msgA] ++ (lastEnq [msgB, msgC]).toList ∧
    (completeAck sAll ackForA).queue.current = lastEnq [msgB, msgC] :=
  queue_latest_wins msgA [msgB, msgC] ackForA rfl

/-- C3: when the armed timeout fires for the still-current message, a
failed ACK with the timeout error is recorded for the control, the
active/current/timer state is cleared, and `processQueue` runs again, so a
pending message (if any) is dispatched immediately. -/
theorem timeout_synthesizes_failed_ack (s : PlaneState) (m : ReloadMessage)
    (now : Int) (hcur : s.queue.current = some m)
    (htimer : s.queue.timer = some m) :
    (fireTimeout s now).lastAck = some (createTimeoutAck m now) ∧
    (createTimeoutAck m now).status = "failed" ∧
    (createTimeoutAck m now).error = some "Timed out waiting for runtime ACK" ∧
    (fireTimeout s now).broadcasts = s.broadcasts ++ (s.queue.pending).toList ∧
    (fireTimeout s now).queue.pending = none ∧
    (fireTimeout s now).queue.current = s.queue.pending ∧
    (fireTimeout s now).queue.active = (s.queue.pending).isSome ∧
    (fireTimeout s now).queue.timer = s.queue.pending := by
  have hft : fireTimeout s now = processQueue
      { queue := { active := false, current := none, pending := s.queue.pending,
                   timer := none },
        lastAck := some (createTimeoutAck m now), broadcasts := s.broadcasts } := by
    unfold fireTimeout
    rw [htimer, hcur]
    simp
  rw [hft]
  unfold processQueue
  cases hp : s.queue.pending with
  | none => simp [hp, createTimeoutAck]
  | some p => simp [hp, createTimeoutAck]

/-- C3 witness: with `msgA` dispatched and `msgB` pending, the timeout
records the synthesized failed ACK and dispatches `msgB`. -/
theorem timeout_synthesizes_failed_ack_witness :
    (fireTimeout planeDispatchedAB 42).lastAck = some (createTimeoutAck msgA 42) ∧
    (createTimeoutAck msgA 42).status = "failed" ∧
    (createTimeoutAck msgA 42).error = some "Timed out waiting for runtime ACK" ∧
    (fireTimeout planeDispatchedAB 42).broadcasts =
      planeDispatchedAB.broadcasts ++ (planeDispatchedAB.queue.pending).toList ∧
    (fireTimeout planeDispatchedAB 42).queue.pending = none ∧
    (fireTimeout planeDispatchedAB 42).queue.current = planeDispatchedAB.queue.pending ∧
    (fireTimeout planeDispatchedAB 42).queue.active =
      (planeDispatchedAB.queue.pending).isSome ∧
    (fireTimeout planeDispatchedAB 42).queue.timer = planeDispatchedAB.queue.pending :=
  timeout_synthesizes_failed_ack planeDispatchedAB msgA 42 rfl rfl

/-- C9 counterexample: a change event arms the debounce, the watcher is
closed, and the debounce -- which `watcher.close()` does not cancel --
still fires and enqueues a reload with trigger watch-bundle after the
close. -/
theorem watcher_close_keeps_armed_debounce_cex :
    watcherRun "cc_Acme.Widget" "2026-01-01T00:00:00.000Z"
        { closed := false, debounceArmed := false } watchTraceArmedThenClosed =
      [(true,
        { controlName := "cc_Acme.Widget", buildId := "2026-01-01T00:00:00.000Z",
          trigger := "watch-bundle", changedFiles := none })] := rfl

/-- C9 (amended): closing the watcher stops the delivery of file-change
events, so no new debounce can be armed after close; but the close does
not cancel an already-armed debounce timer, which may still fire once.
Hence after close at most one watch-bundle reload is enqueued -- and none
at all when no debounce was armed at close time. -/
theorem watcher_closed_at_most_one_enqueue (controlName nowIso : String)
    (events : List WatcherEvent) :
    ∀ s : WatcherState, s.closed = true →
      (watcherRun controlName nowIso s events).length ≤
        (if s.debounceArmed then 1 else 0) := by
  induction events with
  | nil => intro s _; simp [watcherRun]
  | cons e rest ih =>
    intro s h
    cases e with
    | fileChange fn =>
      have hs : watcherStep controlName nowIso s (WatcherEvent.fileChange fn) = (s, []) := by
        simp only [watcherStep]
        rw [if_pos h]
      simp only [watcherRun, hs, List.map_nil, List.nil_append]
      exact ih s h
    | debounceFire =>
      by_cases ha : s.debounceArmed = true
      · have hs : watcherStep controlName nowIso s WatcherEvent.debounceFire =
            ({ s with debounceArmed := false },
             [{ controlName := controlName, buildId := nowIso,
                trigger := "watch-bundle", changedFiles := none }]) := by
          simp only [watcherStep]
          rw [if_pos ha]
        simp only [watcherRun, hs, List.map_cons, List.map_nil, List.cons_append,
          List.nil_append, List.length_cons, ha, if_pos]
        have := ih { s with debounceArmed := false } h
        simpa using this
      · have ha' : s.debounceArmed = false := by
          cases hb : s.debounceArmed
          · rfl
          · exact absurd hb ha
        have hs : watcherStep controlName nowIso s WatcherEvent.debounceFire = (s, []) := by
          simp only [watcherStep]
          rw [if_neg ha]
        simp only [watcherRun, hs, List.map_nil, List.nil_append]
        exact ih s h
    | close =>
      have hss : ({ s with closed := true } : WatcherState) = s := by
        cases s
        simp_all
      have hs : watcherStep controlName nowIso s WatcherEvent.close = (s, []) := by
        simp only [watcherStep]
        rw [hss]
      simp only [watcherRun, hs, List.map_nil, List.nil_append]
      exact ih s h

/-- C9 witness: starting closed with an armed debounce, a late fire plus
further (dropped) events enqueue exactly one reload, within the bound. -/
theorem watcher_closed_at_most_one_enqueue_witness :
    (watcherRun "cc_Test.Control" "2026-01-01T00:00:00.000Z"
        { closed := true, debounceArmed := true }
        [WatcherEvent.debounceFire, WatcherEvent.fileChange "bundle.js",
         WatcherEvent.debounceFire]).length ≤
      (if ({ closed := true, debounceArmed := true } : WatcherState).debounceArmed
       then 1 else 0) :=
  watcher_closed_at_most_one_enqueue "cc_Test.Control" "2026-01-01T00:00:00.000Z"
    [WatcherEvent.debounceFire, WatcherEvent.fileChange "bundle.js",
     WatcherEvent.debounceFire]
    { closed := true, debounceArmed := true } rfl

/-- A successful token match splits the input into an exactly-consumed
middle part and the rest. -/
theorem toksMatchAt_split :
    ∀ (toks : List PatTok) (cs rest : List Char),
      toksMatchAt toks cs = some rest →
      ∃ middle, cs = middle ++ rest ∧ toksMatchAt toks middle = some [] := by
  intro toks
  induction toks with
  | nil =>
    intro cs rest h
    simp only [toksMatchAt, Option.some.injEq] at h
    exact ⟨[], by simp [h], rfl⟩
  | cons t ts ih =>
    intro cs rest h
    cases cs with
    | nil => simp [toksMatchAt] at h
    | cons c cs' =>
      simp only [toksMatchAt] at h
      by_cases hm : tokMatches t c = true
      · rw [if_pos hm] at h
        obtain ⟨middle, hmid, hmt⟩ := ih cs' rest h
        refine ⟨c :: middle, by simp [hmid], ?_⟩
        simp only [toksMatchAt]
        rw [if_pos hm]
        exact hmt
      · rw [if_neg hm] at h
        cases h

/-- `takeNonQ` splits its input into a question-mark-free head and a rest
that is empty or starts with a question mark. -/
theorem takeNonQ_split :
    ∀ cs : List Char,
      cs = (takeNonQ cs).1 ++ (takeNonQ cs).2 ∧
      (∀ c ∈ (takeNonQ cs).1, c ≠ '?') ∧
      ((takeNonQ cs).2 = [] ∨ ∃ r, (takeNonQ cs).2 = '?' :: r) := by
  intro cs
  induction cs with
  | nil => simp [takeNonQ]
  | cons c cs' ih =>
    by_cases hq : c = '?'
    · subst hq
      refine ⟨?_, ?_, Or.inr ⟨cs', ?_⟩⟩ <;> simp [takeNonQ]
    · obtain ⟨ih1, ih2, ih3⟩ := ih
      have ht : takeNonQ (c :: cs') = (c :: (takeNonQ cs').1, (takeNonQ cs').2) := by
        simp only [takeNonQ]
        rw [if_neg hq]
      rw [ht]
      refine ⟨?_, ?_, ih3⟩
      · simpa using ih1
      · intro d hd
        rcases List.mem_cons.mp hd with hd | hd
        · subst hd; exact hq
        · exact ih2 d hd

/-- A successful `matchHere` decomposes the input as token-matched middle,
then a slash, then the non-empty question-mark-free capture, then a rest
that is empty or a query string. -/
theorem matchHere_split (toks : List PatTok) (cs cap : List Char)
    (h : matchHere toks cs = some cap) :
    cap ≠ [] ∧ (∀ c ∈ cap, c ≠ '?') ∧
    ∃ middle rest, cs = middle ++ '/' :: (cap ++ rest) ∧
      toksMatchAt toks middle = some [] ∧
      (rest = [] ∨ ∃ r, rest = '?' :: r) := by
  unfold matchHere at h
  cases hma : toksMatchAt toks cs with
  | none => rw [hma] at h; cases h
  | some rest0 =>
    rw [hma] at h
    cases rest0 with
    | nil => cases h
    | cons c rest2 =>
      simp only at h
      by_cases hc : c = '/'
      · rw [if_pos hc] at h
        by_cases hnil : (takeNonQ rest2).1 = []
        · rw [if_pos hnil] at h; cases h
        · rw [if_neg hnil] at h
          have hcap : cap = (takeNonQ rest2).1 := (Option.some.inj h).symm
          obtain ⟨middle, hmid, hmt⟩ := toksMatchAt_split toks cs (c :: rest2) hma
          obtain ⟨ht1, ht2, ht3⟩ := takeNonQ_split rest2
          subst hcap hc
          refine ⟨hnil, ht2, middle, (takeNonQ rest2).2, ?_, hmt, ht3⟩
          rw [hmid, ← ht1]
      · rw [if_neg hc] at h; cases h

/-- A successful leftmost scan succeeds by `matchHere` at some split of
the input. -/
theorem interceptMatchFrom_split (toks : List PatTok) :
    ∀ (cs cap : List Char), interceptMatchFrom toks cs = some cap →
      ∃ pre suf, cs = pre ++ suf ∧ matchHere toks suf = some cap := by
  intro cs
  induction cs with
  | nil =>
    intro cap h
    exact ⟨[], [], rfl, h⟩
  | cons c cs' ih =>
    intro cap h
    unfold interceptMatchFrom at h
    cases hm : matchHere toks (c :: cs') with
    | some cap0 =>
      rw [hm] at h
      dsimp only at h
      exact ⟨[], c :: cs', rfl, by rw [hm]; exact h⟩
    | none =>
      rw [hm] at h
      dsimp only at h
      obtain ⟨pre, suf, hsplit, hmh⟩ := ih cap h
      exact ⟨c :: pre, suf, by simp [hsplit], hmh⟩

/-- The capture of a successful `interceptMatch` is never the empty
string. -/
theorem interceptMatch_ne_empty (controlName url cap : String)
    (h : interceptMatch controlName url = some cap) : cap ≠ "" := by
  unfold interceptMatch at h
  cases hm : interceptMatchFrom (controlTokens controlName.toList) url.toList with
  | none => rw [hm] at h; cases h
  | some capl =>
    rw [hm] at h
    obtain ⟨pre, suf, _, hmh⟩ := interceptMatchFrom_split _ _ _ hm
    obtain ⟨hne, -, -⟩ := matchHere_split _ _ _ hmh
    have hcap : cap = String.mk capl := (Option.some.inj h).symm
    subst hcap
    intro hcontra
    apply hne
    have h2 : (String.mk capl).toList = ("" : String).toList :=
      congrArg String.toList hcontra
    exact h2

/-- C4 counterexample: for the plain-character control name cc_A.B.C the
URL https-colon-slash-slash-h slash cc_A.BxC slash f matches and captures
f, although the URL does not contain the control identifier with its dots
taken literally -- the second dot was compiled as a wildcard because
`String.prototype.replace` escaped only the first dot. -/
theorem matcher_second_dot_wildcard_cex :
    ("cc_A.B.C".toList.all regexPlainChar = true) ∧
    interceptMatch "cc_A.B.C" "https://h/cc_A.BxC/f" = some "f" ∧
    strContains "https://h/cc_A.BxC/f" "cc_A.B.C" = false := by
  refine ⟨by decide, by decide, by decide⟩

/-- C4 (amended): the matcher escapes only the first dot of the control
identifier (later dots match any character) and appends the slash and the
`[^?]+` capture; a URL matches only if it contains the identifier pattern
-- first dot literal, later dots arbitrary -- followed by a slash and at
least one non-question-mark character, and `match(url)` returns that first
capture group: a maximal question-mark-free run. -/
theorem matcher_match_soundness (controlName url cap : String)
    (hplain : controlName.toList.all regexPlainChar = true)
    (h : interceptMatch controlName url = some cap) :
    cap ≠ "" ∧ (∀ c ∈ cap.toList, c ≠ '?') ∧
    ∃ pre middle rest, url.toList = pre ++ (middle ++ '/' :: (cap.toList ++ rest)) ∧
      toksMatchAt (controlTokens controlName.toList) middle = some [] ∧
      (rest = [] ∨ ∃ r, rest = '?' :: r) := by
  refine ⟨interceptMatch_ne_empty controlName url cap h, ?_, ?_⟩ <;>
  · unfold interceptMatch at h
    cases hm : interceptMatchFrom (controlTokens controlName.toList) url.toList with
    | none => rw [hm] at h; cases h
    | some capl =>
      rw [hm] at h
      have hcap : cap = String.mk capl := (Option.some.inj h).symm
      obtain ⟨pre, suf, hsplit, hmh⟩ := interceptMatchFrom_split _ _ _ hm
      obtain ⟨hne, hnq, middle, rest, hdec, hmt, hrest⟩ := matchHere_split _ _ _ hmh
      subst hcap
      first
      | exact hnq
      | exact ⟨pre, middle, rest, by rw [hsplit, hdec]; rfl, hmt, hrest⟩

/-- C4 witness: the usual single-dot control name matches its bundle URL
and captures the relative path before the query string. -/
theorem matcher_match_soundness_witness :
    ("bundle.js" : String) ≠ "" ∧
    (∀ c ∈ ("bundle.js" : String).toList, c ≠ '?') ∧
    ∃ pre middle rest,
      ("https://x.dynamics.com/cc_Acme.Widget/bundle.js?v=1" : String).toList =
        pre ++ (middle ++ '/' :: (("bundle.js" : String).toList ++ rest)) ∧
      toksMatchAt (controlTokens ("cc_Acme.Widget" : String).toList) middle = some [] ∧
      (rest = [] ∨ ∃ r, rest = '?' :: r) :=
  matcher_match_soundness "cc_Acme.Widget"
    "https://x.dynamics.com/cc_Acme.Widget/bundle.js?v=1" "bundle.js"
    (by decide) (by decide)

/-- C1: for every request URL matched by the interception pattern and
every serving root, whenever the canonical form of root-joined-with-the
extracted relative path does not start with the canonical root followed by
the path separator, the handler answers 403 Forbidden -- for every file
system, so no file is read and no 200 response is produced. -/
theorem intercepted_path_escape_forbidden (controlName servingDir url filename : String)
    (hotMode : Bool) (wsPort : Nat) (hmrSource : String)
    (fsys : String → Option String)
    (hmatch : interceptMatch controlName url = some filename)
    (hesc : strStartsWith (pathResolve (pathJoin servingDir filename))
              (pathResolve servingDir ++ pathSep) = false) :
    handleProxyRequest controlName servingDir hotMode wsPort hmrSource fsys url =
      some { statusCode := 403, body := "Forbidden", contentType := none } := by
  have hne := interceptMatch_ne_empty controlName url filename hmatch
  unfold handleProxyRequest
  rw [hmatch]
  unfold handleIntercepted
  dsimp only
  rw [if_neg hne, if_neg (by rw [hesc]; exact Bool.false_ne_true)]

/-- C1 witness: a dot-dot relative path that escapes the root is refused
with 403 Forbidden regardless of the file system. -/
theorem intercepted_path_escape_forbidden_witness :
    handleProxyRequest "cc_Acme.Widget" "/srv/out" true 8643 "RUNTIME" fsysSample
        "https://x.dynamics.com/cc_Acme.Widget/../etc/passwd" =
      some { statusCode := 403, body := "Forbidden", contentType := none } :=
  intercepted_path_escape_forbidden "cc_Acme.Widget" "/srv/out"
    "https://x.dynamics.com/cc_Acme.Widget/../etc/passwd" "../etc/passwd"
    true 8643 "RUNTIME" fsysSample (by decide) (by decide)

/-- C5: in hot mode the intercepted bundle.js response body is exactly the
port declaration line, then the in-page runtime source and a newline, then
the original bundle bytes, with the sourceMappingURL comment appended
after them exactly when a sibling map file exists. -/
theorem hot_bundle_injection (servingDir : String) (wsPort : Nat)
    (hmrSource : String) (fsys : String → Option String) (contents : String)
    (hok : strStartsWith (pathResolve (pathJoin servingDir "bundle.js"))
             (pathResolve servingDir ++ pathSep) = true)
    (hfile : fsys (pathResolve (pathJoin servingDir "bundle.js")) = some contents) :
    handleIntercepted servingDir true wsPort hmrSource fsys "bundle.js" =
      { statusCode := 200,
        body :=
          if (fsys (pathResolve (pathJoin servingDir "bundle.js") ++ ".map")).isSome then
            "var __pcfHmrWsPort = " ++ toString wsPort ++ ";\n" ++ (hmrSource ++ "\n")
              ++ contents ++ "\n//# sourceMappingURL=" ++ "bundle.js" ++ ".map\n"
          else
            "var __pcfHmrWsPort = " ++ toString wsPort ++ ";\n" ++ (hmrSource ++ "\n")
              ++ contents,
        contentType := some "application/javascript" } := by
  unfold handleIntercepted
  rw [if_neg (by decide : ¬("bundle.js" : String) = ""), if_pos hok, hfile]
  have hjs : strEndsWith "bundle.js" ".js" = true := by decide
  have hmapx : strEndsWith "bundle.js" ".map" = false := by decide
  by_cases hmap : (fsys (pathResolve (pathJoin servingDir "bundle.js") ++ ".map")).isSome
  · simp [hjs, hmap, hmapx]
  · simp [hjs, hmap, hmapx]

/-- C5 witness: with a 8643 ws-port, runtime RUNTIME, bundle bytes BUNDLE
and an existing sibling map, the body is the exact concatenation. -/
theorem hot_bundle_injection_witness :
    handleIntercepted "/srv/out" true 8643 "RUNTIME" fsysSample "bundle.js" =
      { statusCode := 200,
        body :=
          if (fsysSample (pathResolve (pathJoin "/srv/out" "bundle.js") ++ ".map")).isSome
          then
            "var __pcfHmrWsPort = " ++ toString (8643 : Nat) ++ ";\n"
              ++ ("RUNTIME" ++ "\n") ++ "BUNDLE"
              ++ "\n//# sourceMappingURL=" ++ "bundle.js" ++ ".map\n"
          else
            "var __pcfHmrWsPort = " ++ toString (8643 : Nat) ++ ";\n"
              ++ ("RUNTIME" ++ "\n") ++ "BUNDLE",
        contentType := some "application/javascript" } :=
  hot_bundle_injection "/srv/out" 8643 "RUNTIME" fsysSample "BUNDLE"
    (by decide) (by decide)

end PcfDevProxy
